import Mathlib

/-
Verification of the microphone-capture pipeline of `src/src-tauri/src/lib.rs`.

The Rust source has four parts, all embedded below:
  * the sample converters that the three audio callbacks apply
    (`lib.rs` lines 124-127, 148-150, 171-174);
  * the guarded WAV writer cell, an `Arc<Mutex<Option<WavWriter>>>`
    appended to by the callbacks and taken exactly once by finalize
    (`lib.rs` lines 107-108, 122-129, 196-201);
  * the per-buffer input callbacks (`lib.rs` lines 116-130, 140-152, 163-176);
  * the recording controller commands `start_recording`, `stop_recording`
    and `is_recording` over the shared `RecordingState`
    (`lib.rs` lines 9-12, 30-90), together with the fallible setup prefix
    of `record_audio` (`lib.rs` lines 92-185) that runs on the detached
    thread spawned by `start_recording`.

Machine integers are embedded as `Int` with explicit wrapping where the
source narrows; `f32` is embedded as NaN, the two infinities, or an exact
rational value.  The one `f32` multiplication of the source is modeled as
exact rational multiplication, which drops IEEE round-to-nearest; every
statement proved below about the conversion is therefore chosen to be
insensitive to the rounding of that single product.  Concretely: the
concrete inputs used in proofs have products whose exact and rounded
values truncate to the same integer, and the quantified statements only
bound the product against -32768, -32767 and 32767, which rounding to
nearest preserves because it is monotone and those values are exactly
representable (for example, an input above 1.0 has exact product above
32767, hence rounded product at least 32767, hence the same saturated
result).  Statements that would pin down which side of an integer the
exact product falls on are NOT rounding-insensitive and are not made
here: near the bottom of the range an exact product slightly above
-32768 can round to -32768.0 (for example at input -(1+2^-15)), so below
-1.0 only the disjunction "-32768 or -32767" is asserted.
Environment effects (path resolution, device and stream construction)
enter as explicit inputs; each `Mutex`-protected critical section of the
source is one atomic transition of the model.
-/

/-! ### The i16 range and Rust narrowing casts -/

/-- Smallest `i16` value. -/
def i16Min : Int := -32768

/-- Largest `i16` value (`i16::MAX`, the multiplier in the float conversion). -/
def i16Max : Int := 32767

/-- Rust `as i16` applied to a wider integer: wrap modulo 2^16 into
`[-32768, 32767]`. -/
def wrapI16 (z : Int) : Int := (z + 32768) % 65536 - 32768

/-- An `f32` input sample: NaN, an infinity, or a finite value carried as an
exact rational. -/
inductive F32 where
  | nan : F32
  | inf : F32
  | neginf : F32
  | val : ℚ → F32

/-- Truncation of a rational toward zero, the rounding used by Rust
float-to-integer `as` casts. -/
def ratTrunc (q : ℚ) : Int := if 0 ≤ q then ⌊q⌋ else ⌈q⌉

/-- Rust `as i16` applied to an `f32`: truncate toward zero, saturate at the
`i16` bounds, NaN becomes 0 (Rust reference, float-to-int `as` casts). -/
def f32CastI16 : F32 → Int
  | F32.nan => 0
  | F32.inf => i16Max
  | F32.neginf => i16Min
  | F32.val q => max i16Min (min i16Max (ratTrunc q))

/-- `f32` multiplication by the positive constant `i16::MAX as f32 = 32767.0`,
modeled as exact rational multiplication.  This omits IEEE rounding of the
product, so only rounding-insensitive statements are proved about it (see
the header comment): in particular, for inputs strictly between -32768/32767
and -1 the real program may produce -32768 (when the product rounds to
-32768.0) where the exact model truncates to -32767, so no theorem below
distinguishes those two outcomes for such inputs. -/
def f32MulMax : F32 → F32
  | F32.nan => F32.nan
  | F32.inf => F32.inf
  | F32.neginf => F32.neginf
  | F32.val q => F32.val (q * 32767)

/-! ### The Sample Converter (`lib.rs` 124-127, 148-150, 171-174) -/

/-- `lib.rs` 125: `let sample = (sample * i16::MAX as f32) as i16;`. -/
def convertF32 (x : F32) : Int := f32CastI16 (f32MulMax x)

/-- `lib.rs` 148-149: `i16` samples are written unchanged. -/
def convertI16 (s : Int) : Int := s

/-- `lib.rs` 172: `let sample = (sample as i32 - 32768) as i16;` for a `u16`
sample `s` (the widening `u16 as i32` is exact, the subtraction cannot
overflow `i32`, and the final narrowing wraps). -/
def convertU16 (s : Int) : Int := wrapI16 (s - 32768)

/-- The conversion the spec's words describe for out-of-range floats: the
product truncated and then *wrapped* (not saturated) into the `i16` range.
Stated only to be compared against `convertF32`, which follows the source. -/
def convertF32wrapSpec (q : ℚ) : Int := wrapI16 (ratTrunc (q * 32767))

/-! ### The guarded writer cell (`lib.rs` 107-108, 122-129, 196-201) -/

/-- The `Arc<Mutex<Option<WavWriter>>>` cell.  `writer` holds the open
writer's appended samples while the `Option` is `Some`, and is `none` once
finalize has taken the writer out; `finalized` holds the data flushed to the
finished file, once `finalize` has run. -/
structure WriterCell where
  writer : Option (List Int)
  finalized : Option (List Int)

/-- `lib.rs` 122-129 (one sample of the append path): under the lock, write
only when the `Option` still holds the writer; after the writer has been
taken the write is skipped. -/
def write_sample (c : WriterCell) (s : Int) : WriterCell :=
  match c.writer with
  | some w => { c with writer := some (w ++ [s]) }
  | none => c

/-- `lib.rs` 196-201: under the lock, `take()` the writer out of the `Option`
and finalize it; when the `Option` is already empty nothing happens. -/
def finalize (c : WriterCell) : WriterCell :=
  match c.writer with
  | some w => { writer := none, finalized := some w }
  | none => c

/-! ### The per-buffer input callbacks (`lib.rs` 116-130, 140-152, 163-176) -/

/-- `lib.rs` 116-130: the `f32` input callback.  Reads the shared flag and
returns at once when it is no longer set; otherwise, if the writer is still
present, converts and appends every sample of the buffer. -/
def callbackF32 (recording : Bool) (c : WriterCell) (data : List F32) : WriterCell :=
  if !recording then c
  else if c.writer.isSome then
    data.foldl (fun acc s => write_sample acc (convertF32 s)) c
  else c

/-- `lib.rs` 140-152: the `i16` input callback. -/
def callbackI16 (recording : Bool) (c : WriterCell) (data : List Int) : WriterCell :=
  if !recording then c
  else if c.writer.isSome then
    data.foldl (fun acc s => write_sample acc (convertI16 s)) c
  else c

/-- `lib.rs` 163-176: the `u16` input callback. -/
def callbackU16 (recording : Bool) (c : WriterCell) (data : List Int) : WriterCell :=
  if !recording then c
  else if c.writer.isSome then
    data.foldl (fun acc s => write_sample acc (convertU16 s)) c
  else c

/-! ### The recording controller (`lib.rs` 9-12, 30-90) -/

/-- `lib.rs` 9-12: the shared `RecordingState`.  Each controller command runs
under the `is_recording` mutex for its whole body, so a command is one
atomic transition on this state. -/
structure RecordingState where
  is_recording : Bool
  output_path : Option String

/-- Environment inputs consumed by `start_recording`: the result of
`app_handle.path().app_data_dir()` and the error, if any, of
`std::fs::create_dir_all`. -/
structure StartEnv where
  app_data_dir : Except String String
  create_dir_err : Option String

/-- `lib.rs` 30-64 `start_recording`: under the `is_recording` lock, reject
when already recording, set the flag, resolve and create the output
directory (returning the error on failure), record the output path, spawn
the detached recording thread, and return the path. -/
def start_recording (env : StartEnv) (s : RecordingState) :
    RecordingState × Except String String :=
  if s.is_recording then (s, Except.error "Already recording")
  else
    let s1 : RecordingState := { s with is_recording := true }
    match env.app_data_dir with
    | Except.error e => (s1, Except.error ("Failed to get app data directory: " ++ e))
    | Except.ok dir =>
      match env.create_dir_err with
      | some e => (s1, Except.error ("Failed to create app data directory: " ++ e))
      | none =>
        let p := dir ++ "/recording.wav"
        ({ is_recording := true, output_path := some p }, Except.ok p)

/-- `lib.rs` 66-84 `stop_recording`: under the lock, reject when not
recording, clear the flag (before the fixed sleep, so the transition to idle
is immediate), then return the stored output path or the no-path error. -/
def stop_recording (s : RecordingState) : RecordingState × Except String String :=
  if !s.is_recording then (s, Except.error "Not recording")
  else
    let s1 : RecordingState := { s with is_recording := false }
    match s1.output_path with
    | some p => (s1, Except.ok p)
    | none => (s1, Except.error "No recording path found")

/-- `lib.rs` 86-90 `is_recording`: report the current flag. -/
def is_recording (s : RecordingState) : Except String Bool :=
  Except.ok s.is_recording

/-! ### The fallible setup prefix of `record_audio` (`lib.rs` 92-185) -/

/-- The sample formats `record_audio` distinguishes (`cpal::SampleFormat`):
the three handled ones and the catch-all arm of the `match`. -/
inductive CpalSampleFormat where
  | f32 : CpalSampleFormat
  | i16 : CpalSampleFormat
  | u16 : CpalSampleFormat
  | other : CpalSampleFormat

/-- The device stream configuration derived once per session. -/
structure StreamConfig where
  channels : Nat
  sample_rate : Nat

/-- The `hound::WavSpec` built at `lib.rs` 100-105. -/
structure WavSpec where
  channels : Nat
  sample_rate : Nat
  bits_per_sample : Nat
  int_samples : Bool

/-- Environment inputs consumed by `record_audio`'s setup:
whether `default_input_device()` returns a device, the result of
`default_input_config()`, and the results of creating the writer, building
the input stream, and playing it. -/
structure AudioEnv where
  input_device : Bool
  default_config : Except String (CpalSampleFormat × StreamConfig)
  writer_create : Except String Unit
  stream_build : Except String Unit
  stream_play : Except String Unit

/-- `lib.rs` 92-185, the fallible prefix of `record_audio` in source order:
resolve the device, query its configuration, create the WAV writer, build
the stream for the reported format (the catch-all arm fails with
"Unsupported sample format"), and play it.  On success the stream is live
and the function reports the `WavSpec` in use. -/
def record_audio_setup (env : AudioEnv) : Except String WavSpec :=
  if !env.input_device then Except.error "No input device available"
  else
    match env.default_config with
    | Except.error e => Except.error e
    | Except.ok (fmt, cfg) =>
      let spec : WavSpec :=
        { channels := cfg.channels, sample_rate := cfg.sample_rate
          bits_per_sample := 16, int_samples := true }
      match env.writer_create with
      | Except.error e => Except.error e
      | Except.ok _ =>
        match fmt with
        | CpalSampleFormat.other => Except.error "Unsupported sample format"
        | _ =>
          match env.stream_build with
          | Except.error e => Except.error e
          | Except.ok _ =>
            match env.stream_play with
            | Except.error e => Except.error e
            | Except.ok _ => Except.ok spec

/-- `lib.rs` 57-61: the closure run on the detached thread.  Any error of
`record_audio` is printed to stderr and discarded; nothing reaches the
caller of `start_recording`.  The result is the logged line, if any. -/
def spawn_record_audio (env : AudioEnv) : Option String :=
  match record_audio_setup env with
  | Except.error e => some ("Recording error: " ++ e)
  | Except.ok _ => none

/-- `start_recording` together with the detached thread it spawns: the state
after the command, the caller's result, and the line the detached thread
logs (the thread is only spawned when the command itself succeeded). -/
def start_session (senv : StartEnv) (aenv : AudioEnv) (s : RecordingState) :
    RecordingState × Except String String × Option String :=
  match start_recording senv s with
  | (s1, Except.error e) => (s1, Except.error e, none)
  | (s1, Except.ok p) => (s1, Except.ok p, spawn_record_audio aenv)

/-! ### Helper lemmas on truncation and the saturating cast -/

theorem convertF32_val (q : ℚ) :
    convertF32 (F32.val q) = max i16Min (min i16Max (ratTrunc (q * 32767))) := rfl

theorem ratTrunc_eq_of_nonneg {q : ℚ} {n : ℤ} (h0 : 0 ≤ q)
    (h1 : (n : ℚ) ≤ q) (h2 : q < n + 1) : ratTrunc q = n := by
  unfold ratTrunc
  rw [if_pos h0]
  exact Int.floor_eq_iff.mpr ⟨h1, h2⟩

theorem ratTrunc_eq_of_neg {q : ℚ} {n : ℤ} (h0 : q < 0)
    (h1 : (n : ℚ) - 1 < q) (h2 : q ≤ n) : ratTrunc q = n := by
  unfold ratTrunc
  rw [if_neg (not_le.mpr h0)]
  exact Int.ceil_eq_iff.mpr ⟨h1, h2⟩

theorem le_ratTrunc_of_nonneg {q : ℚ} {n : ℤ} (h0 : 0 ≤ q) (h : (n : ℚ) ≤ q) :
    n ≤ ratTrunc q := by
  unfold ratTrunc
  rw [if_pos h0]
  exact Int.le_floor.mpr h

theorem ratTrunc_le_of_neg {q : ℚ} {n : ℤ} (h0 : q < 0) (h : q ≤ (n : ℚ)) :
    ratTrunc q ≤ n := by
  unfold ratTrunc
  rw [if_neg (not_le.mpr h0)]
  exact Int.ceil_le.mpr h

theorem lt_ratTrunc_of_neg {q : ℚ} {n : ℤ} (h0 : q < 0) (h : (n : ℚ) < q) :
    n < ratTrunc q := by
  unfold ratTrunc
  rw [if_neg (not_le.mpr h0)]
  exact Int.lt_ceil.mpr h

theorem convertF32_bounds (x : F32) : i16Min ≤ convertF32 x ∧ convertF32 x ≤ i16Max := by
  cases x with
  | nan => exact ⟨by norm_num [convertF32, f32MulMax, f32CastI16, i16Min],
      by norm_num [convertF32, f32MulMax, f32CastI16, i16Max]⟩
  | inf => exact ⟨by norm_num [convertF32, f32MulMax, f32CastI16, i16Min, i16Max], le_refl _⟩
  | neginf => exact ⟨le_refl _, by norm_num [convertF32, f32MulMax, f32CastI16, i16Min, i16Max]⟩
  | val q =>
    rw [convertF32_val]
    refine ⟨le_max_left _ _, max_le ?_ (min_le_left _ _)⟩
    norm_num [i16Min, i16Max]

theorem convertF32_gt_one {q : ℚ} (h : 1 < q) : convertF32 (F32.val q) = i16Max := by
  rw [convertF32_val]
  have hp : (32767 : ℚ) ≤ q * 32767 := by nlinarith
  have ht : (i16Max : ℤ) ≤ ratTrunc (q * 32767) := by
    have := le_ratTrunc_of_nonneg (by linarith) (n := 32767) hp
    simpa [i16Max] using this
  rw [min_eq_left ht]
  exact max_eq_right (by norm_num [i16Min, i16Max])

theorem convertF32_le_bottom {q : ℚ} (h : q ≤ -32768 / 32767) :
    convertF32 (F32.val q) = i16Min := by
  rw [convertF32_val]
  have hp : q * 32767 ≤ -32768 := by
    have h2 : q * 32767 ≤ (-32768 / 32767 : ℚ) * 32767 := by nlinarith
    calc q * 32767 ≤ (-32768 / 32767 : ℚ) * 32767 := h2
    _ = -32768 := by norm_num
  have ht : ratTrunc (q * 32767) ≤ (-32768 : ℤ) := by
    exact_mod_cast ratTrunc_le_of_neg (by linarith) (by exact_mod_cast hp)
  rw [min_eq_right (le_trans ht (by norm_num [i16Max]))]
  exact max_eq_left (by simpa [i16Min] using ht)

theorem convertF32_between {q : ℚ} (hlo : -32768 / 32767 < q) (hhi : q < -1) :
    convertF32 (F32.val q) = i16Min + 1 := by
  rw [convertF32_val]
  have hneg : q * 32767 < 0 := by nlinarith
  have hup : q * 32767 ≤ -32767 := by nlinarith
  have hdown : (-32768 : ℚ) < q * 32767 := by
    have h2 : (-32768 / 32767 : ℚ) * 32767 < q * 32767 := by nlinarith
    calc (-32768 : ℚ) = (-32768 / 32767 : ℚ) * 32767 := by norm_num
    _ < q * 32767 := h2
  have ht : ratTrunc (q * 32767) = -32767 := by
    have h1 : ratTrunc (q * 32767) ≤ -32767 :=
      ratTrunc_le_of_neg hneg (by exact_mod_cast hup)
    have h2 : (-32768 : ℤ) < ratTrunc (q * 32767) :=
      lt_ratTrunc_of_neg hneg (by exact_mod_cast hdown)
    omega
  rw [ht]
  norm_num [i16Min, i16Max]

/-! ### Claim theorems -/

/-- Claim C1 (code bug evaluation): a setup failure does not leave the
controller idle.  When the output directory cannot be determined,
`start_recording` does return the error synchronously, but the active flag
was already set and stays `true`, so `is_recording` afterwards reports
`true`, not `false`.  When there is no input device, or the sample format
is unsupported, the error arises on the detached thread after
`start_recording` has already returned success: the caller receives `Ok`
and the error is only logged, again with the flag left `true`. -/
theorem c1_setup_error_not_idle :
    (start_recording ⟨Except.error "permission denied", none⟩ ⟨false, none⟩ =
      ({ is_recording := true, output_path := none },
       Except.error "Failed to get app data directory: permission denied"))
  ∧ is_recording
      (start_recording ⟨Except.error "permission denied", none⟩ ⟨false, none⟩).1 =
      Except.ok true
  ∧ (start_session ⟨Except.ok "/data", none⟩
      { input_device := false
        default_config := Except.ok (CpalSampleFormat.f32, ⟨1, 44100⟩)
        writer_create := Except.ok ()
        stream_build := Except.ok ()
        stream_play := Except.ok () }
      ⟨false, none⟩ =
      ({ is_recording := true, output_path := some "/data/recording.wav" },
       Except.ok "/data/recording.wav",
       some "Recording error: No input device available"))
  ∧ (start_session ⟨Except.ok "/data", none⟩
      { input_device := true
        default_config := Except.ok (CpalSampleFormat.other, ⟨1, 44100⟩)
        writer_create := Except.ok ()
        stream_build := Except.ok ()
        stream_play := Except.ok () }
      ⟨false, none⟩ =
      ({ is_recording := true, output_path := some "/data/recording.wav" },
       Except.ok "/data/recording.wav",
       some "Recording error: Unsupported sample format")) :=
  ⟨rfl, rfl, rfl, rfl⟩

/-- Claim C2: finalize takes the writer out of the guarded `Option` exactly
once: after a finalize the `Option` is empty, a second finalize changes
nothing, and an append after finalize writes nothing. -/
theorem c2_finalize_take_once (c : WriterCell) (s : Int) :
    (finalize c).writer = none
  ∧ finalize (finalize c) = finalize c
  ∧ write_sample (finalize c) s = finalize c := by
  cases c with
  | mk w f => cases w <;> simp [finalize, write_sample]

/-- Claim C3 counterexample: at input 2.0 the conversion yields the
saturated value 32767; wrapping, as the claim describes, would yield -2.
The conversion clamps rather than wraps. -/
theorem c3_wrap_refuted_at_two :
    convertF32 (F32.val 2) = 32767
  ∧ convertF32wrapSpec 2 = -2
  ∧ convertF32 (F32.val 2) ≠ convertF32wrapSpec 2 := by
  have ht : ratTrunc ((2 : ℚ) * 32767) = 65534 :=
    ratTrunc_eq_of_nonneg (by norm_num) (by norm_num) (by norm_num)
  have h1 : convertF32 (F32.val 2) = 32767 := by
    rw [convertF32_val, ht]; decide
  have h2 : convertF32wrapSpec 2 = -2 := by
    unfold convertF32wrapSpec; rw [ht]; decide
  exact ⟨h1, h2, by rw [h1, h2]; decide⟩

/-- Claim C3 (amended): the input is indeed not clamped before the multiply,
but the narrowing cast saturates rather than wraps: every finite input above
1.0 converts to 32767, every finite input below -1.0 converts to -32768 or
-32767, and every conversion result lies in [-32768, 32767]. -/
theorem c3_cast_saturates :
    (∀ q : ℚ, 1 < q → convertF32 (F32.val q) = 32767)
  ∧ (∀ q : ℚ, q < -1 →
      convertF32 (F32.val q) = -32768 ∨ convertF32 (F32.val q) = -32767)
  ∧ (∀ x : F32, -32768 ≤ convertF32 x ∧ convertF32 x ≤ 32767) := by
  refine ⟨?_, ?_, ?_⟩
  · intro q h
    simpa [i16Max] using convertF32_gt_one h
  · intro q h
    by_cases hb : q ≤ -32768 / 32767
    · left
      simpa [i16Min] using convertF32_le_bottom hb
    · right
      have := convertF32_between (not_le.mp hb) h
      rw [this]
      norm_num [i16Min]
  · intro x
    have := convertF32_bounds x
    simpa [i16Min, i16Max] using this

/-- Claim C3 witness: the amended statement evaluated at 2.0 and -2.0. -/
theorem c3_cast_saturates_witness :
    convertF32 (F32.val 2) = 32767
  ∧ (convertF32 (F32.val (-2)) = -32768 ∨ convertF32 (F32.val (-2)) = -32767) :=
  ⟨c3_cast_saturates.1 2 (by norm_num), c3_cast_saturates.2.1 (-2) (by norm_num)⟩

/-- Claim C4: `start_recording` while already recording fails with
"Already recording" and leaves the state untouched; and since the check of
the flag and its set happen inside the single critical section of one lock
acquisition (the model's one atomic transition), two starts without an
intervening stop serialize: when the first caller's directory resolution
succeeds, the first call returns the path and the second fails with
"Already recording" without changing the state the first produced. -/
theorem c4_double_start (env1 env2 : StartEnv) (s s' : RecordingState) (d : String)
    (hactive : s'.is_recording = true) (hidle : s.is_recording = false)
    (hdir : env1.app_data_dir = Except.ok d) (hmk : env1.create_dir_err = none) :
    start_recording env2 s' = (s', Except.error "Already recording")
  ∧ (start_recording env1 s).2 = Except.ok (d ++ "/recording.wav")
  ∧ (start_recording env2 (start_recording env1 s).1).2 =
      Except.error "Already recording"
  ∧ (start_recording env2 (start_recording env1 s).1).1 = (start_recording env1 s).1 := by
  have h1 : start_recording env1 s =
      ({ is_recording := true, output_path := some (d ++ "/recording.wav") },
       Except.ok (d ++ "/recording.wav")) := by
    simp [start_recording, hidle, hdir, hmk]
  refine ⟨by simp [start_recording, hactive], ?_, ?_, ?_⟩
  · rw [h1]
  · rw [h1]
    simp [start_recording]
  · rw [h1]
    simp [start_recording]

/-- Claim C4 witness: the double start evaluated at a concrete environment
and states. -/
theorem c4_double_start_witness :
    start_recording ⟨Except.ok "/data", none⟩ ⟨true, none⟩ =
      (⟨true, none⟩, Except.error "Already recording")
  ∧ (start_recording ⟨Except.ok "/data", none⟩ ⟨false, none⟩).2 =
      Except.ok ("/data" ++ "/recording.wav")
  ∧ (start_recording ⟨Except.ok "/data", none⟩
       (start_recording ⟨Except.ok "/data", none⟩ ⟨false, none⟩).1).2 =
      Except.error "Already recording"
  ∧ (start_recording ⟨Except.ok "/data", none⟩
       (start_recording ⟨Except.ok "/data", none⟩ ⟨false, none⟩).1).1 =
      (start_recording ⟨Except.ok "/data", none⟩ ⟨false, none⟩).1 :=
  c4_double_start ⟨Except.ok "/data", none⟩ ⟨Except.ok "/data", none⟩
    ⟨false, none⟩ ⟨true, none⟩ "/data" rfl rfl rfl rfl

/-- Claim C5: `stop_recording` while not recording fails with
"Not recording" and mutates nothing: the whole state, flag and stored path
alike, is returned unchanged. -/
theorem c5_stop_idle_no_mutation (s : RecordingState) (h : s.is_recording = false) :
    stop_recording s = (s, Except.error "Not recording") := by
  simp [stop_recording, h]

/-- Claim C5 witness: a failed stop evaluated on a concrete idle state with
a stored path. -/
theorem c5_stop_idle_witness :
    stop_recording ⟨false, some "/data/recording.wav"⟩ =
      (⟨false, some "/data/recording.wav"⟩, Except.error "Not recording") :=
  c5_stop_idle_no_mutation ⟨false, some "/data/recording.wav"⟩ rfl

/-- Claim C6: `stop_recording` while recording clears the active flag (the
immediate transition to idle), leaves the stored path untouched, and then
returns that path, or fails with "No recording path found" when no path was
ever recorded. -/
theorem c6_stop_while_recording (s : RecordingState) (h : s.is_recording = true) :
    (stop_recording s).1.is_recording = false
  ∧ (stop_recording s).1.output_path = s.output_path
  ∧ (∀ p, s.output_path = some p → (stop_recording s).2 = Except.ok p)
  ∧ (s.output_path = none →
      (stop_recording s).2 = Except.error "No recording path found") := by
  obtain ⟨r, op⟩ := s
  have hr : r = true := h
  subst hr
  cases op with
  | none =>
    refine ⟨rfl, rfl, ?_, fun _ => rfl⟩
    intro p hp
    cases hp
  | some p =>
    refine ⟨rfl, rfl, ?_, ?_⟩
    · intro p' hp
      cases hp
      rfl
    · intro hn
      cases hn

/-- Claim C6 witness: a stop evaluated on a concrete recording state. -/
theorem c6_stop_while_recording_witness :
    (stop_recording ⟨true, some "/a/recording.wav"⟩).1.is_recording = false
  ∧ (stop_recording ⟨true, some "/a/recording.wav"⟩).2 =
      Except.ok "/a/recording.wav" :=
  ⟨(c6_stop_while_recording ⟨true, some "/a/recording.wav"⟩ rfl).1,
   (c6_stop_while_recording ⟨true, some "/a/recording.wav"⟩ rfl).2.2.1 _ rfl⟩

/-- Claim C7: each format's zero level converts to canonical zero, and each
format's maximum converts to within one unit of 32767 (in fact exactly
32767 in all three cases). -/
theorem c7_zero_and_max_levels :
    convertF32 (F32.val 0) = 0
  ∧ convertI16 0 = 0
  ∧ convertU16 32768 = 0
  ∧ convertF32 (F32.val 1) = 32767
  ∧ (convertF32 (F32.val 1) - 32767).natAbs ≤ 1
  ∧ convertI16 32767 = 32767
  ∧ (convertI16 32767 - 32767).natAbs ≤ 1
  ∧ convertU16 65535 = 32767
  ∧ (convertU16 65535 - 32767).natAbs ≤ 1 := by
  have h0 : ratTrunc ((0 : ℚ) * 32767) = 0 :=
    ratTrunc_eq_of_nonneg (by norm_num) (by norm_num) (by norm_num)
  have h1 : ratTrunc ((1 : ℚ) * 32767) = 32767 :=
    ratTrunc_eq_of_nonneg (by norm_num) (by norm_num) (by norm_num)
  have hF0 : convertF32 (F32.val 0) = 0 := by
    rw [convertF32_val, h0]; decide
  have hF1 : convertF32 (F32.val 1) = 32767 := by
    rw [convertF32_val, h1]; decide
  refine ⟨hF0, rfl, by decide, hF1, by rw [hF1]; decide, rfl, by decide,
    by decide, by decide⟩

/-- Claim C8: a callback that observes the stop flag already cleared returns
at once and writes nothing: the writer cell is unchanged, whatever the
buffer holds, for all three formats. -/
theorem c8_callback_after_stop_noop (c : WriterCell) (dF : List F32)
    (dI dU : List Int) :
    callbackF32 false c dF = c
  ∧ callbackI16 false c dI = c
  ∧ callbackU16 false c dU = c :=
  ⟨rfl, rfl, rfl⟩

/-- Claim C9 counterexample: the input -8388609/8388608 = -(1 + 2^-23) is an
exactly representable `f32` less than -1.0, yet it converts to -32767, not
to -32768 as the claim's "inputs less than -1.0 saturate to -32768"
requires.  This evaluation is rounding-insensitive: the exact product is
-32767 - 32767/8388608 and the `f32` product, -32767 - 2^-8, truncates to
the same -32767; both lie strictly inside (-32768, -32767). -/
theorem c9_refuted_just_below_minus_one :
    ((-8388609 : ℚ) / 8388608 < -1)
  ∧ convertF32 (F32.val ((-8388609 : ℚ) / 8388608)) = -32767
  ∧ convertF32 (F32.val ((-8388609 : ℚ) / 8388608)) ≠ -32768 := by
  have h := convertF32_between (q := (-8388609 : ℚ) / 8388608)
    (by norm_num) (by norm_num)
  rw [h]
  refine ⟨by norm_num, by norm_num [i16Min], by norm_num [i16Min]⟩

/-- Claim C9 (amended): the narrowing cast never wraps and has no undefined
behavior: every conversion result lies in [-32768, 32767], inputs greater
than 1.0 saturate to 32767, NaN converts to 0, and inputs less than -1.0
clamp to the bottom of the range, producing -32768 or -32767.  (Which of
the two bottom values occurs depends on the rounding of the `f32` product,
which the exact model does not track, so only the disjunction is
asserted.) -/
theorem c9_cast_never_wraps :
    (∀ x : F32, -32768 ≤ convertF32 x ∧ convertF32 x ≤ 32767)
  ∧ (∀ q : ℚ, 1 < q → convertF32 (F32.val q) = 32767)
  ∧ convertF32 F32.nan = 0
  ∧ (∀ q : ℚ, q < -1 →
      convertF32 (F32.val q) = -32768 ∨ convertF32 (F32.val q) = -32767) := by
  refine ⟨?_, ?_, rfl, ?_⟩
  · intro x
    have := convertF32_bounds x
    simpa [i16Min, i16Max] using this
  · intro q h
    simpa [i16Max] using convertF32_gt_one h
  · intro q h
    by_cases hb : q ≤ -32768 / 32767
    · left
      simpa [i16Min] using convertF32_le_bottom hb
    · right
      have := convertF32_between (not_le.mp hb) h
      rw [this]
      norm_num [i16Min]

/-- Claim C9 witness: the amended statement evaluated at 1.5, NaN and -1.5. -/
theorem c9_cast_never_wraps_witness :
    convertF32 (F32.val (3 / 2)) = 32767
  ∧ convertF32 F32.nan = 0
  ∧ (convertF32 (F32.val (-3 / 2)) = -32768 ∨ convertF32 (F32.val (-3 / 2)) = -32767) :=
  ⟨c9_cast_never_wraps.2.1 (3 / 2) (by norm_num),
   c9_cast_never_wraps.2.2.1,
   c9_cast_never_wraps.2.2.2 (-3 / 2) (by norm_num)⟩

/-- Claim C10: the u16 conversion computes exactly s - 32768 on the u16
range (the widening, subtraction and narrowing lose nothing), is strictly
increasing, lands in the i16 range, and every i16 value is hit by exactly
one u16 input (the preimage y + 32768). -/
theorem c10_u16_recenter (s t y : Int)
    (hs0 : 0 ≤ s) (hs : s < 65536) (ht0 : 0 ≤ t) (ht : t < 65536) (hst : s < t)
    (hy0 : -32768 ≤ y) (hy : y ≤ 32767) :
    convertU16 s = s - 32768
  ∧ convertU16 s < convertU16 t
  ∧ (-32768 ≤ convertU16 s ∧ convertU16 s ≤ 32767)
  ∧ (convertU16 (y + 32768) = y ∧ 0 ≤ y + 32768 ∧ y + 32768 < 65536) := by
  unfold convertU16 wrapI16
  refine ⟨by omega, by omega, ⟨by omega, by omega⟩, by omega, by omega, by omega⟩

/-- Claim C10 witness: the conversion evaluated at 100, 40000 and the
preimage of -5. -/
theorem c10_u16_recenter_witness :
    convertU16 100 = 100 - 32768
  ∧ convertU16 100 < convertU16 40000
  ∧ (-32768 ≤ convertU16 100 ∧ convertU16 100 ≤ 32767)
  ∧ (convertU16 (-5 + 32768) = -5 ∧ 0 ≤ (-5 : Int) + 32768 ∧ (-5 : Int) + 32768 < 65536) :=
  c10_u16_recenter 100 40000 (-5) (by decide) (by decide) (by decide)
    (by decide) (by decide) (by decide) (by decide)
